import Mathlib

/-!
Verification of the gsc-api batch metrics scripts.

Shallow embedding of the analytics core of three Python scripts:
`keyword_performance.py`, `page_performance_comparison.py` and
`page_indexing.py`.  Real numbers of the source (Python floats) are
modelled as rationals; calendar dates are modelled by a civil
year/month/day structure together with a day-ordinal conversion, so that
Python `timedelta` arithmetic and `date` comparison become integer
arithmetic on ordinals.
-/

/-- Model of `pct_change` (page_performance_comparison.py lines 175-184).
Returns `none` for the undefined (previous = 0, current > 0) case, which the
script renders as an empty CSV cell. -/
def pct_change (current previous : ℚ) : Option ℚ :=
  if previous = 0 then (if current = 0 then some 0 else none)
  else some ((current - previous) / previous * 100)

/-- Model of the absolute change `current - previous`, as computed in
page_performance_comparison.py main (lines 319-320): always defined. -/
def abs_change (current previous : ℚ) : ℚ :=
  current - previous

/-- Model of `compute_previous_period` (page_performance_comparison.py lines
159-169).  Dates are day ordinals (`timedelta` arithmetic is integer
arithmetic on ordinals).  Returns `(prev_start, prev_end, days_inclusive)`. -/
def compute_previous_period (cur_start cur_end : ℤ) : Except String (ℤ × ℤ × ℤ) :=
  if cur_end < cur_start then
    .error ("End date must be >= start date.")
  else
    let days_inclusive := cur_end - cur_start + 1
    let prev_end := cur_start - 1
    let prev_start := prev_end - (days_inclusive - 1)
    .ok (prev_start, prev_end, days_inclusive)

/-- A raw row of a Search Analytics API response: clicks, impressions, ctr
and position, as consumed by the aggregation loops. -/
structure ApiRow where
  clicks : ℚ
  impressions : ℚ
  ctr : ℚ
  position : ℚ
deriving DecidableEq

/-- A CSV output cell: the empty cell, a numeric value, or a text value. -/
inductive CsvField where
  | empty : CsvField
  | num : ℚ → CsvField
  | str : String → CsvField
deriving DecidableEq

/-- Round a rational to the nearest integer, ties to even, modelling Python's
round on our rational number model. -/
def round_half_even (x : ℚ) : ℤ :=
  let f := ⌊x⌋
  let r := x - (f : ℚ)
  if r < 1 / 2 then f
  else if 1 / 2 < r then f + 1
  else if f % 2 = 0 then f else f + 1

/-- Python round(x, n). -/
def py_round (x : ℚ) (n : ℕ) : ℚ :=
  (round_half_even (x * 10 ^ n) : ℚ) / 10 ^ n

/-- Python int(round(x)). -/
def py_round_int (x : ℚ) : ℤ :=
  round_half_even x

/-- One step of the aggregation loop in keyword_performance.py main (lines
217-223): accumulates (total_clicks, total_impr, weighted_pos). -/
def agg_step (acc : ℚ × ℚ × ℚ) (r : ApiRow) : ℚ × ℚ × ℚ :=
  (acc.1 + r.clicks, acc.2.1 + r.impressions, acc.2.2 + r.position * r.impressions)

/-- The aggregation loop of keyword_performance.py main (lines 213-223),
starting from total_clicks = total_impr = weighted_pos = 0.0. -/
def aggregate_rows (rows : List ApiRow) : ℚ × ℚ × ℚ :=
  rows.foldl agg_step (0, 0, 0)

/-- ctr from the aggregated totals (keyword_performance.py line 225):
total_clicks / total_impr when total_impr > 0, else 0. -/
def keyword_ctr (rows : List ApiRow) : ℚ :=
  let t := aggregate_rows rows
  if t.2.1 > 0 then t.1 / t.2.1 else 0

/-- Impressions-weighted average position (keyword_performance.py line 226):
weighted_pos / total_impr when total_impr > 0, else the empty cell (none). -/
def keyword_avg_pos (rows : List ApiRow) : Option ℚ :=
  let t := aggregate_rows rows
  if t.2.1 > 0 then some (t.2.2 / t.2.1) else none

/-- The CSV row keyword_performance.py main writes for one keyword (lines
196-239), in the field order of the csv writer (lines 155-164).  The empty
row-set branch (lines 198-211) writes clicks = impressions = ctr = 0 and an
empty position cell. -/
def keyword_item_row (kw sd ed mt : String) (rows : List ApiRow) :
    List (String × CsvField) :=
  if rows.isEmpty then
    [("keyword", .str kw), ("clicks", .num 0), ("impressions", .num 0),
     ("ctr", .num 0), ("position", .empty),
     ("start_date", .str sd), ("end_date", .str ed), ("match_type", .str mt)]
  else
    let t := aggregate_rows rows
    [("keyword", .str kw),
     ("clicks", .num ((py_round_int t.1 : ℤ) : ℚ)),
     ("impressions", .num ((py_round_int t.2.1 : ℤ) : ℚ)),
     ("ctr", .num (py_round (keyword_ctr rows) 4)),
     ("position", match keyword_avg_pos rows with
        | some p => .num (py_round p 2)
        | none => .empty),
     ("start_date", .str sd), ("end_date", .str ed), ("match_type", .str mt)]

/-- The CSV row keyword_performance.py main writes when the query raises an
HttpError (lines 241-254): every metric cell empty. -/
def keyword_error_row (kw sd ed mt : String) : List (String × CsvField) :=
  [("keyword", .str kw), ("clicks", .empty), ("impressions", .empty),
   ("ctr", .empty), ("position", .empty),
   ("start_date", .str sd), ("end_date", .str ed), ("match_type", .str mt)]

/-- Python str.strip(): drop leading and trailing whitespace. -/
def py_strip (s : String) : String :=
  String.mk (((s.data.dropWhile Char.isWhitespace).reverse.dropWhile
    Char.isWhitespace).reverse)

/-- The keep condition of the read loops (keyword_performance.py line 95):
the negation of the skip condition, where a line is skipped when it is empty
or its first character is the comment marker (v.startswith with a one
character argument is a head-character test). -/
def keep_line (v : String) : Bool :=
  match v.data with
  | [] => false
  | c :: _ => !(c == ('#' : Char))

/-- The seen-set deduplication loop (keyword_performance.py lines 100-106):
keep a value only when it has not been seen yet. -/
def dedup_seen : List String → List String → List String
  | _, [] => []
  | seen, v :: rest =>
    if v ∈ seen then dedup_seen seen rest
    else v :: dedup_seen (v :: seen) rest

/-- Model of read_list (keyword_performance.py lines 87-106): strip each
line, skip empty and comment lines, then de-duplicate preserving order. -/
def read_list (lines : List String) : List String :=
  dedup_seen [] ((lines.map py_strip).filter keep_line)

/-- read_url_list (page_performance_comparison.py lines 94-113) and read_urls
(page_indexing.py lines 34-54) have the same body as read_list. -/
def read_url_list (lines : List String) : List String :=
  dedup_seen [] ((lines.map py_strip).filter keep_line)

/-- Spec-side definition of first-occurrence de-duplication, following the
spec's words: keep each value the first time it appears, drop its later
occurrences, preserve order.  Compared against the code's seen-set loop. -/
def dedup_first : List String → List String
  | [] => []
  | v :: rest => v :: dedup_first (rest.filter (fun w => decide (w ≠ v)))
termination_by l => l.length
decreasing_by
  simp only [List.length_cons]
  exact Nat.lt_succ_of_le (List.length_filter_le _ _)

/-- A civil calendar date, modelling Python datetime.date. -/
structure Date where
  year : ℤ
  month : ℤ
  day : ℤ
deriving DecidableEq

/-- calendar.isleap. -/
def is_leap (y : ℤ) : Bool :=
  y % 4 == 0 && (y % 100 != 0 || y % 400 == 0)

/-- calendar.monthrange(y, m)[1]: the number of days of the month. -/
def days_in_month (y m : ℤ) : ℤ :=
  if m = 2 then (if is_leap y then 29 else 28)
  else if m = 4 ∨ m = 6 ∨ m = 9 ∨ m = 11 then 30
  else 31

/-- The while loop of subtract_months: add 12 to the month and subtract 1
from the year until the month is positive.  Fuel-based structural recursion;
for a valid input month the loop runs at most months/12 + 1 times, below the
supplied fuel. -/
def normalize_ym : ℕ → ℤ → ℤ → ℤ × ℤ
  | 0, y, m => (y, m)
  | fuel + 1, y, m =>
    if m ≤ 0 then normalize_ym fuel (y - 1) (m + 12) else (y, m)

/-- Model of subtract_months (page_performance_comparison.py lines 119-130):
subtract N calendar months, clamping the day to the last valid day of the
target month. -/
def subtract_months (d : Date) (months : ℕ) : Date :=
  let ym := normalize_ym (months + 1) d.year (d.month - months)
  let last_day := days_in_month ym.1 ym.2
  ⟨ym.1, ym.2, min d.day last_day⟩

/-- earliest_gsc_date (page_performance_comparison.py lines 133-135): today
minus 16 calendar months. -/
def earliest_gsc_date (today : Date) : Date :=
  subtract_months today 16

/-- The day ordinal of a civil date (days since 1970-01-01, proleptic
Gregorian).  Python date comparison and timedelta arithmetic are order
isomorphic to integer arithmetic on this ordinal. -/
def days_from_civil (dt : Date) : ℤ :=
  let y := if dt.month ≤ 2 then dt.year - 1 else dt.year
  let era := Int.fdiv y 400
  let yoe := y - era * 400
  let mp := if dt.month > 2 then dt.month - 3 else dt.month + 9
  let doy := Int.fdiv (153 * mp + 2) 5 + dt.day - 1
  let doe := yoe * 365 + Int.fdiv yoe 4 - Int.fdiv yoe 100 + doy
  era * 146097 + doe - 719468

/-- enforce_16_month_window (page_performance_comparison.py lines 138-146)
as a violation test: true when the current or previous period start precedes
the retention horizon, in which case the code aborts the run with
SystemExit(1).  Dates are compared via their ordinals. -/
def enforce_16_month_window (today : Date)
    (cur_start_ord prev_start_ord : ℤ) : Bool :=
  decide (cur_start_ord < days_from_civil (earliest_gsc_date today)) ||
  decide (prev_start_ord < days_from_civil (earliest_gsc_date today))

/-- The aggregate metrics record fetch_page_metrics returns. -/
structure PageMetrics where
  clicks : ℚ
  impressions : ℚ
  ctr : ℚ
  position : ℚ
deriving DecidableEq

/-- Model of fetch_page_metrics (page_performance_comparison.py lines
190-230), applied to the row set of the service response (rowLimit 1): the
zero-row case returns the all-zero record, position included; otherwise the
first row's service-provided values are used directly. -/
def fetch_page_metrics (rows : List ApiRow) : PageMetrics :=
  match rows with
  | [] => ⟨0, 0, 0, 0⟩
  | r :: _ => ⟨r.clicks, r.impressions, r.ctr, r.position⟩

/-- The outcome of the two fetches of one comparison target: both succeed,
the first raises HttpError, or the second raises HttpError. -/
inductive FetchOutcome where
  | ok (cur prev : List ApiRow)
  | errFirst (msg : String)
  | errSecond (cur : List ApiRow) (msg : String)

/-- The success row of comparison main (page_performance_comparison.py lines
311-346), in the csv field order of lines 281-300. -/
def comparison_ok_row (site page cs ce ps pe : String)
    (cur prev : PageMetrics) : List (String × CsvField) :=
  [("page_url", .str page), ("site_url", .str site),
   ("current_start", .str cs), ("current_end", .str ce),
   ("previous_start", .str ps), ("previous_end", .str pe),
   ("clicks_current", .num ((py_round_int cur.clicks : ℤ) : ℚ)),
   ("clicks_previous", .num ((py_round_int prev.clicks : ℤ) : ℚ)),
   ("clicks_change_abs",
     .num ((py_round_int (abs_change cur.clicks prev.clicks) : ℤ) : ℚ)),
   ("clicks_change_pct", match pct_change cur.clicks prev.clicks with
      | none => .empty
      | some v => .num (py_round v 2)),
   ("impressions_current", .num ((py_round_int cur.impressions : ℤ) : ℚ)),
   ("impressions_previous", .num ((py_round_int prev.impressions : ℤ) : ℚ)),
   ("impressions_change_abs",
     .num ((py_round_int (abs_change cur.impressions prev.impressions) : ℤ) : ℚ)),
   ("impressions_change_pct",
     match pct_change cur.impressions prev.impressions with
      | none => .empty
      | some v => .num (py_round v 2)),
   ("ctr_current", .num (py_round cur.ctr 6)),
   ("ctr_previous", .num (py_round prev.ctr 6)),
   ("position_current", .num (py_round cur.position 2)),
   ("position_previous", .num (py_round prev.position 2))]

/-- The HttpError row of comparison main (lines 348-371): identity and date
fields filled, every metric field the empty cell; no error field exists in
this schema, the error text is only printed. -/
def comparison_error_row (site page cs ce ps pe : String) :
    List (String × CsvField) :=
  [("page_url", .str page), ("site_url", .str site),
   ("current_start", .str cs), ("current_end", .str ce),
   ("previous_start", .str ps), ("previous_end", .str pe),
   ("clicks_current", .empty), ("clicks_previous", .empty),
   ("clicks_change_abs", .empty), ("clicks_change_pct", .empty),
   ("impressions_current", .empty), ("impressions_previous", .empty),
   ("impressions_change_abs", .empty), ("impressions_change_pct", .empty),
   ("ctr_current", .empty), ("ctr_previous", .empty),
   ("position_current", .empty), ("position_previous", .empty)]

/-- The row written for one comparison target. -/
def comparison_target_row (site page cs ce ps pe : String)
    (oc : FetchOutcome) : List (String × CsvField) :=
  match oc with
  | .ok cur prev =>
      comparison_ok_row site page cs ce ps pe
        (fetch_page_metrics cur) (fetch_page_metrics prev)
  | .errFirst _ => comparison_error_row site page cs ce ps pe
  | .errSecond _ _ => comparison_error_row site page cs ce ps pe

/-- Observable side effects of the batch loops: a searchanalytics query, a
url inspection call, or a time.sleep pause. -/
inductive Ev where
  | fetch (url : String) (period : ℕ)
  | inspect (url : String)
  | sleep (seconds : ℚ)
deriving DecidableEq

/-- Recognizes a time.sleep event. -/
def is_sleep_ev : Ev → Bool
  | .sleep _ => true
  | _ => false

/-- The fetch calls one comparison target performs before its outcome is
settled: two on success or on a second-fetch error, one when the first
fetch raises. -/
def comparison_item_events (u : String) (oc : FetchOutcome) : List Ev :=
  match oc with
  | .ok _ _ => [.fetch u 1, .fetch u 2]
  | .errFirst _ => [.fetch u 1]
  | .errSecond _ _ => [.fetch u 1, .fetch u 2]

/-- The comparison batch loop (page_performance_comparison.py lines
309-374): one row per url, in order; the plan gives each item's outcome by
its 1-based index; the loop body contains no time.sleep call. -/
def comparison_loop (site cs ce ps pe : String) (plan : ℕ → FetchOutcome) :
    ℕ → List String → List (List (String × CsvField)) × List Ev
  | _, [] => ([], [])
  | i, u :: rest =>
    let oc := plan i
    let row := comparison_target_row site u cs ce ps pe oc
    let evs := comparison_item_events u oc
    let out := comparison_loop site cs ce ps pe plan (i + 1) rest
    (row :: out.1, evs ++ out.2)

/-- The abort message of the retention-window guard (lines 141-146). -/
def retention_window_msg : String :=
  "Date range is outside the 16-month Search Analytics window."

/-- The comparison run (page_performance_comparison.py main, lines 236-376):
compute the previous period, enforce the 16-month window before any fetch,
then run the batch loop.  Today and the period bounds are civil dates; the
timedelta arithmetic acts on their ordinals. -/
def run_comparison (today cur_start cur_end : Date)
    (site cs_s ce_s ps_s pe_s : String)
    (urls : List String) (plan : ℕ → FetchOutcome) :
    Except String (List (List (String × CsvField))) × List Ev :=
  match compute_previous_period (days_from_civil cur_start)
      (days_from_civil cur_end) with
  | .error e => (.error e, [])
  | .ok (prev_start, _prev_end, _days) =>
    if enforce_16_month_window today (days_from_civil cur_start) prev_start then
      (.error retention_window_msg, [])
    else
      let out := comparison_loop site cs_s ce_s ps_s pe_s plan 1 urls
      (.ok out.1, out.2)

/-- The indexStatusResult fields page_indexing.py extracts (lines 177-189),
already defaulted to the empty string where missing. -/
structure IndexStatusResult where
  verdict : String
  coverageState : String
  indexingState : String
  robotsTxtState : String
  pageFetchState : String
  crawledAs : String
  lastCrawlTime : String
  googleCanonical : String
  userCanonical : String
  referringUrls : List String
deriving DecidableEq

/-- The outcome of one url inspection: success, HttpError with an optional
status code, or another exception. -/
inductive InspectOutcome where
  | ok (res : IndexStatusResult)
  | httpError (status : Option ℤ) (msg : String)
  | otherError (msg : String)

/-- The transient test of page_indexing.py line 197: status in
(429, 500, 503); a missing status code is not transient. -/
def is_transient_status (status : Option ℤ) : Bool :=
  match status with
  | some s => s == 429 || s == 500 || s == 503
  | none => false

/-- The pacing delay applied after every item (page_indexing.py lines
163-164 and 209). -/
def delay_seconds : ℚ := 15 / 100

/-- The bounded backoff pause of page_indexing.py line 198:
min(10, 1 + (i % 5) * 1.5) for the 1-based item index i. -/
def backoff_seconds (i : ℕ) : ℚ :=
  min 10 (1 + ((i % 5 : ℕ) : ℚ) * (3 / 2))

/-- The CSV row page_indexing.py main writes for one url (lines 170-204), in
the fieldnames order of lines 147-161: cells start empty, the identity
fields are always filled; the success branch fills the inspection fields; an
HttpError fills only the error field with the HttpError text; any other
exception fills only the error field with the Error text. -/
def indexing_item_row (site u : String) (oc : InspectOutcome) :
    List (String × CsvField) :=
  match oc with
  | .ok res =>
      [("inspection_url", .str u), ("site_url", .str site),
       ("verdict", .str res.verdict),
       ("coverage_state", .str res.coverageState),
       ("indexing_state", .str res.indexingState),
       ("robots_txt_state", .str res.robotsTxtState),
       ("page_fetch_state", .str res.pageFetchState),
       ("crawled_as", .str res.crawledAs),
       ("last_crawl_time", .str res.lastCrawlTime),
       ("canonical_google", .str res.googleCanonical),
       ("canonical_user", .str res.userCanonical),
       ("referring_urls_count", .str (toString res.referringUrls.length)),
       ("error", .empty)]
  | .httpError _ msg =>
      [("inspection_url", .str u), ("site_url", .str site),
       ("verdict", .empty), ("coverage_state", .empty),
       ("indexing_state", .empty), ("robots_txt_state", .empty),
       ("page_fetch_state", .empty), ("crawled_as", .empty),
       ("last_crawl_time", .empty), ("canonical_google", .empty),
       ("canonical_user", .empty), ("referring_urls_count", .empty),
       ("error", .str (("HttpError: ") ++ msg))]
  | .otherError msg =>
      [("inspection_url", .str u), ("site_url", .str site),
       ("verdict", .empty), ("coverage_state", .empty),
       ("indexing_state", .empty), ("robots_txt_state", .empty),
       ("page_fetch_state", .empty), ("crawled_as", .empty),
       ("last_crawl_time", .empty), ("canonical_google", .empty),
       ("canonical_user", .empty), ("referring_urls_count", .empty),
       ("error", .str (("Error: ") ++ msg))]

/-- The observable side effects of one indexing item (page_indexing.py lines
175-209): the inspect call, then on a transient HttpError one bounded
backoff sleep, then the unconditional pacing sleep. -/
def indexing_item_events (i : ℕ) (u : String) (oc : InspectOutcome) :
    List Ev :=
  [.inspect u] ++
  (match oc with
   | .httpError st _ =>
       if is_transient_status st then [.sleep (backoff_seconds i)] else []
   | _ => []) ++
  [.sleep delay_seconds]

/-- The indexing batch loop (page_indexing.py lines 170-209): one row per
url, in order, with the item events interleaved. -/
def indexing_loop (site : String) (plan : ℕ → InspectOutcome) :
    ℕ → List String → List (List (String × CsvField)) × List Ev
  | _, [] => ([], [])
  | i, u :: rest =>
    let oc := plan i
    let row := indexing_item_row site u oc
    let evs := indexing_item_events i u oc
    let out := indexing_loop site plan (i + 1) rest
    (row :: out.1, evs ++ out.2)

/-- C2: for every pair of non-negative rationals (current, previous),
`pct_change` returns 0 when both are 0; returns `none` (rendered empty, never
0 or an error) when previous = 0 and current > 0; and otherwise returns
(current - previous) / previous * 100; the absolute change current - previous
is defined in all cases.  In particular pct_change 0 0 = some 0,
pct_change 150 100 = some 50 and pct_change 50 100 = some (-50). -/
theorem claim_c2_percent_change :
    (∀ current previous : ℚ, 0 ≤ current → 0 ≤ previous →
      (previous = 0 → current = 0 → pct_change current previous = some 0) ∧
      (previous = 0 → 0 < current → pct_change current previous = none) ∧
      (previous ≠ 0 → pct_change current previous =
        some ((current - previous) / previous * 100)) ∧
      abs_change current previous = current - previous) ∧
    pct_change 0 0 = some 0 ∧
    pct_change 150 100 = some 50 ∧
    pct_change 50 100 = some (-50) := by
  refine ⟨?_, by norm_num [pct_change], by norm_num [pct_change],
    by norm_num [pct_change]⟩
  intro c p _hc _hp
  refine ⟨?_, ?_, ?_, rfl⟩
  · intro hp0 hc0
    simp [pct_change, hp0, hc0]
  · intro hp0 hcpos
    simp [pct_change, hp0, ne_of_gt hcpos]
  · intro hp0
    simp [pct_change, hp0]

/-- Witness for C2 at the concrete input (150, 100). -/
theorem claim_c2_percent_change_witness :
    0 ≤ (150 : ℚ) ∧ 0 ≤ (100 : ℚ) ∧ (100 : ℚ) ≠ 0 ∧
    pct_change 150 100 = some ((150 - 100) / 100 * 100) ∧
    abs_change 150 100 = 150 - 100 := by
  have h := claim_c2_percent_change.1 150 100 (by norm_num) (by norm_num)
  exact ⟨by norm_num, by norm_num, by norm_num, h.2.2.1 (by norm_num), h.2.2.2⟩

/-- C3: for every date range with start ≤ end (as day ordinals),
`compute_previous_period` succeeds and returns a range of identical inclusive
length immediately preceding it: prev_end = start - 1,
prev_start = prev_end - (length - 1), hence prev_end + 1 = start and the
previous range has the same inclusive length. -/
theorem claim_c3_previous_period :
    ∀ s e : ℤ, s ≤ e →
      compute_previous_period s e =
        .ok ((s - 1) - ((e - s + 1) - 1), s - 1, e - s + 1) ∧
      ((s - 1) - ((s - 1) - ((e - s + 1) - 1)) + 1 = e - s + 1) ∧
      ((s - 1) + 1 = s) := by
  intro s e h
  refine ⟨?_, by ring, by ring⟩
  simp [compute_previous_period, if_neg (not_lt.mpr h)]

/-- Witness for C3 at the concrete range (0, 6): a seven-day range whose
previous period is (-7, -1). -/
theorem claim_c3_previous_period_witness :
    (0 : ℤ) ≤ 6 ∧
    compute_previous_period 0 6 =
      .ok ((0 - 1) - ((6 - 0 + 1) - 1), 0 - 1, 6 - 0 + 1) := by
  have h := claim_c3_previous_period 0 6 (by norm_num)
  exact ⟨by norm_num, h.1⟩

/-- The aggregation fold, with an arbitrary accumulator, equals the
accumulator plus the three componentwise sums. -/
theorem foldl_agg_step (rows : List ApiRow) :
    ∀ a b c : ℚ, rows.foldl agg_step (a, b, c) =
      (a + (rows.map (fun r => r.clicks)).sum,
       b + (rows.map (fun r => r.impressions)).sum,
       c + (rows.map (fun r => r.position * r.impressions)).sum) := by
  induction rows with
  | nil => intro a b c; simp
  | cons r rs ih =>
    intro a b c
    simp only [List.foldl_cons, List.map_cons, List.sum_cons, agg_step]
    rw [ih]
    simp only [Prod.mk.injEq]
    refine ⟨by ring, by ring, by ring⟩

/-- The aggregation loop computes the componentwise sums. -/
theorem aggregate_rows_eq (rows : List ApiRow) :
    aggregate_rows rows =
      ((rows.map (fun r => r.clicks)).sum,
       (rows.map (fun r => r.impressions)).sum,
       (rows.map (fun r => r.position * r.impressions)).sum) := by
  simpa using foldl_agg_step rows 0 0 0

/-- C1: for every non-empty row set with positive total impressions, the
keyword aggregate has clicks and impressions equal to the row sums, position
equal to the impressions-weighted average of the row positions and ctr
recomputed as total clicks over total impressions; in particular the two-row
example aggregates to clicks 15, impressions 150, position 4 and ctr 1/10. -/
theorem claim_c1_keyword_aggregation :
    (∀ rows : List ApiRow, rows ≠ [] →
      0 < (rows.map (fun r => r.impressions)).sum →
      (aggregate_rows rows).1 = (rows.map (fun r => r.clicks)).sum ∧
      (aggregate_rows rows).2.1 = (rows.map (fun r => r.impressions)).sum ∧
      keyword_avg_pos rows =
        some ((rows.map (fun r => r.position * r.impressions)).sum /
          (rows.map (fun r => r.impressions)).sum) ∧
      keyword_ctr rows =
        (rows.map (fun r => r.clicks)).sum /
          (rows.map (fun r => r.impressions)).sum) ∧
    (aggregate_rows [⟨10, 100, 1/10, 5⟩, ⟨5, 50, 1/10, 2⟩]).1 = 15 ∧
    (aggregate_rows [⟨10, 100, 1/10, 5⟩, ⟨5, 50, 1/10, 2⟩]).2.1 = 150 ∧
    keyword_avg_pos [⟨10, 100, 1/10, 5⟩, ⟨5, 50, 1/10, 2⟩] = some 4 ∧
    keyword_ctr [⟨10, 100, 1/10, 5⟩, ⟨5, 50, 1/10, 2⟩] = 1/10 := by
  refine ⟨?_, ?_, ?_, ?_, ?_⟩
  · intro rows _hne hpos
    have ha := aggregate_rows_eq rows
    refine ⟨by rw [ha], by rw [ha], ?_, ?_⟩
    · simp [keyword_avg_pos, ha, hpos]
    · simp [keyword_ctr, ha, hpos]
  · norm_num [aggregate_rows, agg_step, List.foldl]
  · norm_num [aggregate_rows, agg_step, List.foldl]
  · norm_num [keyword_avg_pos, aggregate_rows, agg_step, List.foldl]
  · norm_num [keyword_ctr, aggregate_rows, agg_step, List.foldl]

/-- Witness for C1 at the example row set of the claim. -/
theorem claim_c1_keyword_aggregation_witness :
    ([⟨10, 100, 1/10, 5⟩, ⟨5, 50, 1/10, 2⟩] : List ApiRow) ≠ [] ∧
    0 < (([⟨10, 100, 1/10, 5⟩, ⟨5, 50, 1/10, 2⟩] : List ApiRow).map
      (fun r => r.impressions)).sum ∧
    ((aggregate_rows [⟨10, 100, 1/10, 5⟩, ⟨5, 50, 1/10, 2⟩]).1 =
        (([⟨10, 100, 1/10, 5⟩, ⟨5, 50, 1/10, 2⟩] : List ApiRow).map
          (fun r => r.clicks)).sum ∧
      (aggregate_rows [⟨10, 100, 1/10, 5⟩, ⟨5, 50, 1/10, 2⟩]).2.1 =
        (([⟨10, 100, 1/10, 5⟩, ⟨5, 50, 1/10, 2⟩] : List ApiRow).map
          (fun r => r.impressions)).sum ∧
      keyword_avg_pos [⟨10, 100, 1/10, 5⟩, ⟨5, 50, 1/10, 2⟩] =
        some ((([⟨10, 100, 1/10, 5⟩, ⟨5, 50, 1/10, 2⟩] : List ApiRow).map
            (fun r => r.position * r.impressions)).sum /
          (([⟨10, 100, 1/10, 5⟩, ⟨5, 50, 1/10, 2⟩] : List ApiRow).map
            (fun r => r.impressions)).sum) ∧
      keyword_ctr [⟨10, 100, 1/10, 5⟩, ⟨5, 50, 1/10, 2⟩] =
        (([⟨10, 100, 1/10, 5⟩, ⟨5, 50, 1/10, 2⟩] : List ApiRow).map
          (fun r => r.clicks)).sum /
          (([⟨10, 100, 1/10, 5⟩, ⟨5, 50, 1/10, 2⟩] : List ApiRow).map
            (fun r => r.impressions)).sum) := by
  refine ⟨by simp, by norm_num, ?_⟩
  exact claim_c1_keyword_aggregation.1 _ (by simp) (by norm_num)

/-- The seen-set loop is first-occurrence de-duplication of the part of the
input not yet seen. -/
theorem dedup_seen_eq (l : List String) :
    ∀ seen, dedup_seen seen l =
      dedup_first (l.filter (fun w => decide (w ∉ seen))) := by
  induction l with
  | nil => intro seen; simp [dedup_seen, dedup_first]
  | cons v rest ih =>
    intro seen
    rw [List.filter_cons]
    by_cases h : v ∈ seen
    · simp only [dedup_seen, if_pos h, ih seen]
      simp [h]
    · have hd : decide (v ∉ seen) = true := by simp [h]
      rw [hd]
      simp only [if_true]
      rw [dedup_first]
      simp only [dedup_seen, if_neg h, ih (v :: seen)]
      rw [List.filter_filter]
      congr 1
      congr 1
      apply List.filter_congr
      intro a _
      simp [List.mem_cons, not_or]

/-- C9: the target-list loader strips each line, skips empty lines and lines
whose first character is the comment marker, and removes duplicates keeping
the first occurrence with the original order preserved; in particular the
list of lines a, a, b, empty loads as the list a, b. -/
theorem claim_c9_target_list_loader :
    (∀ lines : List String,
      read_list lines = dedup_first ((lines.map py_strip).filter keep_line) ∧
      read_url_list lines = read_list lines) ∧
    read_list ["a", "a", "b", ""] = ["a", "b"] := by
  refine ⟨?_, by decide⟩
  intro lines
  refine ⟨?_, rfl⟩
  rw [read_list, dedup_seen_eq]
  simp

/-- C10: in the keyword aggregation every division is guarded: for a
non-empty row set whose impressions sum to 0, the aggregate ctr is 0, the
position is the empty cell, and the emitted ctr and position fields are the
number 0 and the empty cell respectively. -/
theorem claim_c10_zero_divisor_guard :
    ∀ (rows : List ApiRow) (kw sd ed mt : String), rows ≠ [] →
      (rows.map (fun r => r.impressions)).sum = 0 →
      keyword_ctr rows = 0 ∧
      keyword_avg_pos rows = none ∧
      List.lookup ("ctr") (keyword_item_row kw sd ed mt rows) =
        some (.num 0) ∧
      List.lookup ("position") (keyword_item_row kw sd ed mt rows) =
        some .empty := by
  intro rows kw sd ed mt hne hzero
  have ha := aggregate_rows_eq rows
  have hctr : keyword_ctr rows = 0 := by
    simp [keyword_ctr, ha, hzero]
  have hpos : keyword_avg_pos rows = none := by
    simp [keyword_avg_pos, ha, hzero]
  have hemp : rows.isEmpty = false := by
    cases rows with
    | nil => exact absurd rfl hne
    | cons r rs => rfl
  have h04 : py_round 0 4 = 0 := by norm_num [py_round, round_half_even]
  refine ⟨hctr, hpos, ?_, ?_⟩
  · simp only [keyword_item_row, hemp, Bool.false_eq_true, if_false, hctr, hpos]
    simp [List.lookup, h04]
  · simp only [keyword_item_row, hemp, Bool.false_eq_true, if_false, hctr, hpos]
    simp [List.lookup]

/-- Witness for C10 at a one-row set with zero impressions. -/
theorem claim_c10_zero_divisor_guard_witness :
    ([⟨3, 0, 0, 7⟩] : List ApiRow) ≠ [] ∧
    (([⟨3, 0, 0, 7⟩] : List ApiRow).map (fun r => r.impressions)).sum = 0 ∧
    (keyword_ctr [⟨3, 0, 0, 7⟩] = 0 ∧
      keyword_avg_pos [⟨3, 0, 0, 7⟩] = none ∧
      List.lookup ("ctr") (keyword_item_row ("k") ("s") ("e") ("equals")
        [⟨3, 0, 0, 7⟩]) = some (.num 0) ∧
      List.lookup ("position") (keyword_item_row ("k") ("s") ("e") ("equals")
        [⟨3, 0, 0, 7⟩]) = some .empty) := by
  refine ⟨by simp, by norm_num, ?_⟩
  exact claim_c10_zero_divisor_guard [⟨3, 0, 0, 7⟩] ("k") ("s") ("e")
    ("equals") (by simp) (by norm_num)

/-- A valid range reduces compute_previous_period to its ok branch. -/
theorem compute_previous_period_ok (s e : ℤ) (h : s ≤ e) :
    compute_previous_period s e =
      .ok ((s - 1) - ((e - s + 1) - 1), s - 1, e - s + 1) := by
  simp [compute_previous_period, if_neg (not_lt.mpr h)]

/-- The violation test unfolds to the two horizon comparisons. -/
theorem enforce_16_month_window_iff (today : Date) (a p : ℤ) :
    enforce_16_month_window today a p = true ↔
      (a < days_from_civil (earliest_gsc_date today) ∨
       p < days_from_civil (earliest_gsc_date today)) := by
  simp [enforce_16_month_window]

/-- Every comparison row carries its target in the page_url field. -/
theorem comparison_row_page_url (site u cs ce ps pe : String)
    (oc : FetchOutcome) :
    List.lookup ("page_url") (comparison_target_row site u cs ce ps pe oc) =
      some (.str u) := by
  cases oc <;> rfl

/-- Every indexing row carries its target in the inspection_url field. -/
theorem indexing_row_inspection_url (site u : String) (oc : InspectOutcome) :
    List.lookup ("inspection_url") (indexing_item_row site u oc) =
      some (.str u) := by
  cases oc <;> rfl

/-- The comparison loop emits one row per target, in input order. -/
theorem comparison_loop_rows (site cs ce ps pe : String)
    (plan : ℕ → FetchOutcome) (urls : List String) :
    ∀ i, (comparison_loop site cs ce ps pe plan i urls).1.length =
        urls.length ∧
      (comparison_loop site cs ce ps pe plan i urls).1.map
        (fun r => List.lookup ("page_url") r) =
        urls.map (fun u => some (.str u)) := by
  induction urls with
  | nil => intro i; exact ⟨rfl, rfl⟩
  | cons u rest ih =>
    intro i
    constructor
    · simp [comparison_loop, (ih (i + 1)).1]
    · simp [comparison_loop, (ih (i + 1)).2, comparison_row_page_url]

/-- The indexing loop emits one row per target, in input order. -/
theorem indexing_loop_rows (site : String) (plan : ℕ → InspectOutcome)
    (urls : List String) :
    ∀ i, (indexing_loop site plan i urls).1.length = urls.length ∧
      (indexing_loop site plan i urls).1.map
        (fun r => List.lookup ("inspection_url") r) =
        urls.map (fun u => some (.str u)) := by
  induction urls with
  | nil => intro i; exact ⟨rfl, rfl⟩
  | cons u rest ih =>
    intro i
    constructor
    · simp [indexing_loop, (ih (i + 1)).1]
    · simp [indexing_loop, (ih (i + 1)).2, indexing_row_inspection_url]

/-- One comparison item produces no sleep event. -/
theorem comparison_item_events_no_sleep (u : String) (oc : FetchOutcome) :
    (comparison_item_events u oc).filter is_sleep_ev = [] := by
  cases oc <;> rfl

/-- The whole comparison loop produces no sleep event. -/
theorem comparison_loop_no_sleep (site cs ce ps pe : String)
    (plan : ℕ → FetchOutcome) (urls : List String) :
    ∀ i, ((comparison_loop site cs ce ps pe plan i urls).2.filter
      is_sleep_ev) = [] := by
  induction urls with
  | nil => intro i; rfl
  | cons u rest ih =>
    intro i
    simp [comparison_loop, List.filter_append, ih (i + 1),
      comparison_item_events_no_sleep]

/-- C4 counterexample: in comparison mode a zero-row response does not give
an empty position cell: the emitted position field is the number 0, which is
not the empty cell. -/
theorem claim_c4_counterexample :
    List.lookup ("position_current")
      (comparison_target_row ("s") ("u") ("cs") ("ce") ("ps") ("pe")
        (.ok [] [])) = some (.num 0) ∧
    some (CsvField.num 0) ≠ some CsvField.empty := by
  constructor
  · have h0 : py_round 0 2 = 0 := by norm_num [py_round, round_half_even]
    simp [comparison_target_row, comparison_ok_row, fetch_page_metrics,
      List.lookup, pct_change, abs_change, h0]
  · simp

/-- C4 amended: for a zero-row response, keyword mode emits clicks 0,
impressions 0, ctr 0 and an empty position cell; comparison mode's
fetch_page_metrics instead returns the all-zero record with position 0 (not
absent), and the emitted position fields carry the number 0, not an empty
cell. -/
theorem claim_c4_zero_rows :
    ∀ kw sd ed mt site u cs ce ps pe : String,
      keyword_item_row kw sd ed mt [] =
        [("keyword", .str kw), ("clicks", .num 0), ("impressions", .num 0),
         ("ctr", .num 0), ("position", .empty),
         ("start_date", .str sd), ("end_date", .str ed),
         ("match_type", .str mt)] ∧
      fetch_page_metrics [] = ⟨0, 0, 0, 0⟩ ∧
      List.lookup ("position_current")
        (comparison_target_row site u cs ce ps pe (.ok [] [])) =
        some (.num 0) ∧
      List.lookup ("position_previous")
        (comparison_target_row site u cs ce ps pe (.ok [] [])) =
        some (.num 0) := by
  intro kw sd ed mt site u cs ce ps pe
  have h0 : py_round 0 2 = 0 := by norm_num [py_round, round_half_even]
  refine ⟨?_, rfl, ?_, ?_⟩
  · simp [keyword_item_row]
  · simp [comparison_target_row, comparison_ok_row, fetch_page_metrics,
      List.lookup, pct_change, abs_change, h0]
  · simp [comparison_target_row, comparison_ok_row, fetch_page_metrics,
      List.lookup, pct_change, abs_change, h0]

/-- C5: both batch loops emit exactly one row per target, in input order,
with no reordering and no deduplication (the target field sequence equals
the input sequence, duplicates included), for every mix of per-target
outcomes; a per-target failure never changes the row count. -/
theorem claim_c5_one_row_per_target :
    ∀ (site cs ce ps pe : String) (plan : ℕ → FetchOutcome)
      (site2 : String) (plan2 : ℕ → InspectOutcome) (urls : List String),
      (comparison_loop site cs ce ps pe plan 1 urls).1.length =
        urls.length ∧
      (comparison_loop site cs ce ps pe plan 1 urls).1.map
        (fun r => List.lookup ("page_url") r) =
        urls.map (fun u => some (.str u)) ∧
      (indexing_loop site2 plan2 1 urls).1.length = urls.length ∧
      (indexing_loop site2 plan2 1 urls).1.map
        (fun r => List.lookup ("inspection_url") r) =
        urls.map (fun u => some (.str u)) := by
  intro site cs ce ps pe plan site2 plan2 urls
  exact ⟨(comparison_loop_rows site cs ce ps pe plan urls 1).1,
    (comparison_loop_rows site cs ce ps pe plan urls 1).2,
    (indexing_loop_rows site2 plan2 urls 1).1,
    (indexing_loop_rows site2 plan2 urls 1).2⟩

/-- C6: in comparison mode, when the current or previous period start
precedes the retention horizon (today minus 16 calendar months, day clamped
to the target month's last valid day, e.g. 2026-03-31 minus 1 month is
2026-02-28), the run fails once with the retention-window error and an empty
event trace, so before any fetch call; when both starts are on or after the
horizon the check passes and the batch runs without abort. -/
theorem claim_c6_retention_window :
    (∀ (today cur_start cur_end : Date) (site cs_s ce_s ps_s pe_s : String)
        (urls : List String) (plan : ℕ → FetchOutcome),
      days_from_civil cur_start ≤ days_from_civil cur_end →
      ((days_from_civil cur_start <
          days_from_civil (earliest_gsc_date today) ∨
        days_from_civil cur_start -
            (days_from_civil cur_end - days_from_civil cur_start + 1) <
          days_from_civil (earliest_gsc_date today)) →
        run_comparison today cur_start cur_end site cs_s ce_s ps_s pe_s urls
          plan = (.error retention_window_msg, [])) ∧
      (¬(days_from_civil cur_start <
          days_from_civil (earliest_gsc_date today) ∨
        days_from_civil cur_start -
            (days_from_civil cur_end - days_from_civil cur_start + 1) <
          days_from_civil (earliest_gsc_date today)) →
        run_comparison today cur_start cur_end site cs_s ce_s ps_s pe_s urls
          plan =
          (.ok (comparison_loop site cs_s ce_s ps_s pe_s plan 1 urls).1,
            (comparison_loop site cs_s ce_s ps_s pe_s plan 1 urls).2))) ∧
    subtract_months ⟨2026, 3, 31⟩ 1 = ⟨2026, 2, 28⟩ := by
  refine ⟨?_, by decide⟩
  intro today cs ce site cs_s ce_s ps_s pe_s urls plan h
  have hps : (days_from_civil cs - 1) -
      ((days_from_civil ce - days_from_civil cs + 1) - 1) =
      days_from_civil cs -
        (days_from_civil ce - days_from_civil cs + 1) := by ring
  constructor
  · intro hv
    rw [← hps] at hv
    have henf : enforce_16_month_window today (days_from_civil cs)
        ((days_from_civil cs - 1) -
          ((days_from_civil ce - days_from_civil cs + 1) - 1)) = true :=
      (enforce_16_month_window_iff today _ _).mpr hv
    simp only [run_comparison, compute_previous_period_ok _ _ h, henf,
      if_true]
  · intro hv
    rw [← hps] at hv
    have henf : enforce_16_month_window today (days_from_civil cs)
        ((days_from_civil cs - 1) -
          ((days_from_civil ce - days_from_civil cs + 1) - 1)) = false := by
      rw [Bool.eq_false_iff]
      intro hc
      exact hv ((enforce_16_month_window_iff today _ _).mp hc)
    simp only [run_comparison, compute_previous_period_ok _ _ h, henf,
      Bool.false_eq_true, if_false]

/-- Witness for C6: with today 2026-10-12 the horizon is 2025-06-12, so a
current period starting 2024-01-01 violates the window and the run aborts
with the retention error and no fetch events. -/
theorem claim_c6_retention_window_witness :
    days_from_civil ⟨2024, 1, 1⟩ ≤ days_from_civil ⟨2024, 1, 31⟩ ∧
    (days_from_civil ⟨2024, 1, 1⟩ <
        days_from_civil (earliest_gsc_date ⟨2026, 10, 12⟩) ∨
      days_from_civil ⟨2024, 1, 1⟩ -
          (days_from_civil ⟨2024, 1, 31⟩ - days_from_civil ⟨2024, 1, 1⟩ + 1) <
        days_from_civil (earliest_gsc_date ⟨2026, 10, 12⟩)) ∧
    run_comparison ⟨2026, 10, 12⟩ ⟨2024, 1, 1⟩ ⟨2024, 1, 31⟩ ("s") ("cs")
        ("ce") ("ps") ("pe") ["u"] (fun _ => .errFirst ("boom")) =
      (.error retention_window_msg, []) := by
  refine ⟨by decide, by decide, ?_⟩
  exact (claim_c6_retention_window.1 ⟨2026, 10, 12⟩ ⟨2024, 1, 1⟩
    ⟨2024, 1, 31⟩ ("s") ("cs") ("ce") ("ps") ("pe") ["u"]
    (fun _ => .errFirst ("boom")) (by decide)).1 (by decide)

/-- C7 counterexample: the comparison script's failed-target row contains no
error marker: its schema has no error field at all (the lookup returns
none), and every field apart from the identity and date fields is the empty
cell. -/
theorem claim_c7_counterexample :
    List.lookup ("error")
      (comparison_target_row ("s") ("u") ("cs") ("ce") ("ps") ("pe")
        (.errFirst ("boom"))) = none ∧
    comparison_target_row ("s") ("u") ("cs") ("ce") ("ps") ("pe")
        (.errFirst ("boom")) =
      [("page_url", .str ("u")), ("site_url", .str ("s")),
       ("current_start", .str ("cs")), ("current_end", .str ("ce")),
       ("previous_start", .str ("ps")), ("previous_end", .str ("pe")),
       ("clicks_current", .empty), ("clicks_previous", .empty),
       ("clicks_change_abs", .empty), ("clicks_change_pct", .empty),
       ("impressions_current", .empty), ("impressions_previous", .empty),
       ("impressions_change_abs", .empty),
       ("impressions_change_pct", .empty),
       ("ctr_current", .empty), ("ctr_previous", .empty),
       ("position_current", .empty), ("position_previous", .empty)] := by
  constructor
  · simp [comparison_target_row, comparison_error_row, List.lookup]
  · rfl

/-- C7 amended: a failing fetch yields a row with every metric field empty
and the batch continues (the row count is preserved) in both scripts; the
indexing script populates its error field with the HttpError text, while the
comparison script's row schema has no error field, the error being only
printed. -/
theorem claim_c7_error_rows :
    ∀ (site u cs ce ps pe msg site2 : String) (st : Option ℤ),
      comparison_target_row site u cs ce ps pe (.errFirst msg) =
        comparison_error_row site u cs ce ps pe ∧
      List.lookup ("error") (comparison_error_row site u cs ce ps pe) =
        none ∧
      List.lookup ("clicks_current")
        (comparison_error_row site u cs ce ps pe) = some .empty ∧
      List.lookup ("error") (indexing_item_row site2 u (.httpError st msg)) =
        some (.str (("HttpError: ") ++ msg)) ∧
      List.lookup ("verdict")
        (indexing_item_row site2 u (.httpError st msg)) = some .empty ∧
      (∀ (plan : ℕ → FetchOutcome) (plan2 : ℕ → InspectOutcome)
        (urls : List String),
        (comparison_loop site cs ce ps pe plan 1 urls).1.length =
          urls.length ∧
        (indexing_loop site2 plan2 1 urls).1.length = urls.length) := by
  intro site u cs ce ps pe msg site2 st
  refine ⟨rfl, ?_, ?_, ?_, ?_, ?_⟩
  · simp [comparison_error_row, List.lookup]
  · simp [comparison_error_row, List.lookup]
  · simp [indexing_item_row, List.lookup]
  · simp [indexing_item_row, List.lookup]
  · intro plan plan2 urls
    exact ⟨(comparison_loop_rows site cs ce ps pe plan urls 1).1,
      (indexing_loop_rows site2 plan2 urls 1).1⟩

/-- C8 counterexample: the comparison batch loop never sleeps: a one-item
run with a rate-limited outcome emits its row but produces no sleep event at
all, neither a pacing delay nor a backoff pause. -/
theorem claim_c8_counterexample :
    (comparison_loop ("s") ("cs") ("ce") ("ps") ("pe")
        (fun _ => .errFirst ("429 rate limited")) 1 ["u"]).1.length = 1 ∧
    ((comparison_loop ("s") ("cs") ("ce") ("ps") ("pe")
        (fun _ => .errFirst ("429 rate limited")) 1 ["u"]).2.filter
      is_sleep_ev) = [] := by
  exact ⟨rfl, rfl⟩

/-- C8 amended: in the indexing script every item's trace ends with the
fixed 0.15 second pacing sleep; a transient HttpError (status 429, 500 or
503) additionally triggers exactly one bounded positive backoff pause (at
most 10 seconds) before it; any other outcome sleeps only the pacing delay;
the comparison script's batch loop performs no sleep at all. -/
theorem claim_c8_pacing_and_backoff :
    ∀ (i : ℕ) (u msg : String) (st : Option ℤ) (res : IndexStatusResult),
      (indexing_item_events i u (.ok res)).filter is_sleep_ev =
        [.sleep delay_seconds] ∧
      (indexing_item_events i u (.otherError msg)).filter is_sleep_ev =
        [.sleep delay_seconds] ∧
      (is_transient_status st = true →
        (indexing_item_events i u (.httpError st msg)).filter is_sleep_ev =
          [.sleep (backoff_seconds i), .sleep delay_seconds] ∧
        0 < backoff_seconds i ∧ backoff_seconds i ≤ 10) ∧
      (is_transient_status st = false →
        (indexing_item_events i u (.httpError st msg)).filter is_sleep_ev =
          [.sleep delay_seconds]) ∧
      (∀ (site cs ce ps pe : String) (plan : ℕ → FetchOutcome)
        (urls : List String),
        ((comparison_loop site cs ce ps pe plan 1 urls).2.filter
          is_sleep_ev) = []) := by
  intro i u msg st res
  refine ⟨?_, ?_, ?_, ?_, ?_⟩
  · simp [indexing_item_events, is_sleep_ev]
  · simp [indexing_item_events, is_sleep_ev]
  · intro htr
    refine ⟨by simp [indexing_item_events, htr, is_sleep_ev], ?_, ?_⟩
    · have hnn : (0 : ℚ) ≤ ((i % 5 : ℕ) : ℚ) := by positivity
      have h1 : (0 : ℚ) < 1 + ((i % 5 : ℕ) : ℚ) * (3 / 2) := by nlinarith
      exact lt_min (by norm_num) h1
    · exact min_le_left _ _
  · intro htr
    simp [indexing_item_events, htr, is_sleep_ev]
  · intro site cs ce ps pe plan urls
    exact comparison_loop_no_sleep site cs ce ps pe plan urls 1

/-- Witness for C8 at item index 3 with a 429 HttpError: the transient
branch fires, giving one backoff sleep then the pacing sleep. -/
theorem claim_c8_pacing_and_backoff_witness :
    is_transient_status (some 429) = true ∧
    (indexing_item_events 3 ("a") (.httpError (some 429) ("m"))).filter
      is_sleep_ev = [.sleep (backoff_seconds 3), .sleep delay_seconds] ∧
    0 < backoff_seconds 3 ∧ backoff_seconds 3 ≤ 10 := by
  have h := (claim_c8_pacing_and_backoff 3 ("a") ("m") (some 429)
    ⟨("" : String), "", "", "", "", "", "", "", "", []⟩).2.2.1 (by decide)
  exact ⟨by decide, h.1, h.2.1, h.2.2⟩
